import Mathlib

/-!
Verification of the Swiss AI provider adapter
(`crates/goose/src/providers/swiss_ai.rs`) against its specification.

The adapter's own logic (metadata, `from_env`, `complete` post-transport
processing, `fetch_supported_models` post-transport processing) is embedded
directly from the source.  Collaborators that live outside the file under
study (config store, retry policy, OpenAI format codec) are modelled from
the specification, each marked `Modelled from the spec:` in its doc comment.
-/

/-- A structured JSON value, mirroring `serde_json::Value`. -/
inductive Json where
  | null : Json
  | bool (b : Bool) : Json
  | num (n : Int) : Json
  | str (s : String) : Json
  | arr (xs : List Json) : Json
  | obj (fields : List (String × Json)) : Json

/-- Field lookup in a JSON object's field list, mirroring `Value::get(key)`. -/
def lookupField : List (String × Json) → String → Option Json
  | [], _ => none
  | (k, v) :: rest, key => if k == key then some v else lookupField rest key

/-- Mirrors `serde_json::Value::get(key)`: `Some` only on objects holding the key. -/
def Json.get (j : Json) (key : String) : Option Json :=
  match j with
  | .obj fields => lookupField fields key
  | _ => none

/-- Mirrors `Value::as_array`. -/
def Json.asArray (j : Json) : Option (List Json) :=
  match j with
  | .arr xs => some xs
  | _ => none

/-- Mirrors `Value::as_str`. -/
def Json.asStr (j : Json) : Option String :=
  match j with
  | .str s => some s
  | _ => none

/-- Mirrors `Value::as_i64`. -/
def Json.asInt (j : Json) : Option Int :=
  match j with
  | .num n => some n
  | _ => none

/-- The provider error taxonomy.  `UsageError` appears in the source file;
the remaining kinds follow the spec's error taxonomy (§7). -/
inductive ProviderError where
  | ConfigurationError (msg : String) : ProviderError
  | AuthenticationError (msg : String) : ProviderError
  | RateLimitedError (msg : String) : ProviderError
  | TransientNetworkError (msg : String) : ProviderError
  | MalformedInputError (msg : String) : ProviderError
  | ResponseShapeError (msg : String) : ProviderError
  | UsageError (msg : String) : ProviderError
deriving Repr, DecidableEq

/-- Normalized token accounting (spec §3): all fields optional, absent by default. -/
structure Usage where
  input_tokens : Option Int
  output_tokens : Option Int
  total_tokens : Option Int
deriving Repr, DecidableEq

/-- Mirrors `Usage::default()`: every token count absent/zeroed. -/
def Usage.default : Usage := ⟨none, none, none⟩

/-- Provider-agnostic message (spec §3: role and content; tool data omitted as
none of the verified claims touch it). -/
structure Message where
  role : String
  content : String
deriving Repr, DecidableEq

/-- Usage paired with the model id the backend actually reported. -/
structure ProviderUsage where
  model : String
  usage : Usage
deriving Repr, DecidableEq

/-- Configuration key descriptor (spec §3). -/
structure ConfigKey where
  name : String
  required : Bool
  secret : Bool
  default : Option String
deriving Repr, DecidableEq

/-- Static provider descriptor (spec §3). -/
structure ProviderMetadata where
  name : String
  display_name : String
  description : String
  default_model : String
  known_models : List String
  model_doc_link : String
  config_keys : List ConfigKey
deriving Repr, DecidableEq

/-- Identifies which backend model to target. -/
structure ModelConfig where
  model_name : String
deriving Repr, DecidableEq

/-- Credential attachment strategy; the Swiss AI adapter uses a bearer token. -/
inductive AuthMethod where
  | BearerToken (token : String) : AuthMethod
deriving Repr, DecidableEq

/-- Transport client handle: base host plus auth strategy. -/
structure ApiClient where
  host : String
  auth : AuthMethod
deriving Repr, DecidableEq

/-- Mirrors `ApiClient::new(host, auth)`: constructs the handle (no network access). -/
def ApiClient.new (host : String) (auth : AuthMethod) : Except ProviderError ApiClient :=
  .ok ⟨host, auth⟩

/-- Modelled from the spec: the external secret/config store collaborator (§6),
queried by name; `swiss_ai.rs` reaches it through `Config::global().get_secret`
and `get_param`, whose implementations are outside the file under study. -/
structure ConfigStore where
  secrets : List (String × String)
  params : List (String × String)
deriving Repr, DecidableEq

/-- Modelled from the spec: absence of a required key yields a
ConfigurationError (`config.get_secret(name)` in the source). -/
def ConfigStore.get_secret (c : ConfigStore) (key : String) : Except ProviderError String :=
  match c.secrets.lookup key with
  | some v => .ok v
  | none => .error (.ConfigurationError ("missing secret: " ++ key))

/-- Modelled from the spec: optional parameter lookup (`config.get_param(name)`
in the source); the caller substitutes a default on failure. -/
def ConfigStore.get_param (c : ConfigStore) (key : String) : Option String :=
  c.params.lookup key

/-- Source constant `SWISS_AI_API_HOST`. -/
def SWISS_AI_API_HOST : String := "https://api.swiss-ai-platform.ch"

/-- Source constant `SWISS_AI_DEFAULT_MODEL`. -/
def SWISS_AI_DEFAULT_MODEL : String := "llama-3.3-70b-instruct"

/-- Source constant `SWISS_AI_KNOWN_MODELS`. -/
def SWISS_AI_KNOWN_MODELS : List String :=
  ["llama-3.3-70b-instruct", "llama-4-405b-instruct"]

/-- Source constant `SWISS_AI_DOC_URL`. -/
def SWISS_AI_DOC_URL : String := "https://docs.swiss-ai-platform.ch/models"

/-- The adapter instance: a transport client handle and a model config. -/
structure SwissAiProvider where
  api_client : ApiClient
  model : ModelConfig
deriving Repr, DecidableEq

/-- Embeds `SwissAiProvider::metadata()` (source lines 58-71): a constant
descriptor built only from the source constants; the body consults no
configuration or network state. -/
def SwissAiProvider.metadata : ProviderMetadata :=
  ⟨"swiss-ai", "Swiss AI Platform", "Swiss AI Platform with Llama models",
    SWISS_AI_DEFAULT_MODEL, SWISS_AI_KNOWN_MODELS, SWISS_AI_DOC_URL,
    [⟨"SWISS_AI_API_KEY", true, true, none⟩,
     ⟨"SWISS_AI_HOST", false, false, some SWISS_AI_API_HOST⟩]⟩

/-- Invoking `metadata()` in any configuration state: the source body refers
only to constants, so the store argument is unused. -/
def metadataCall (_store : ConfigStore) : ProviderMetadata :=
  SwissAiProvider.metadata

/-- Embeds `SwissAiProvider::from_env` (source lines 34-45).  The second
component records the network requests issued during construction: the source
body only reads configuration and builds the client handle, so none are. -/
def SwissAiProvider.from_env (config : ConfigStore) (model : ModelConfig) :
    Except ProviderError SwissAiProvider × List String :=
  (do
    let api_key ← config.get_secret ("SWISS_AI_API_KEY")
    let host := (config.get_param ("SWISS_AI_HOST")).getD SWISS_AI_API_HOST
    let api_client ← ApiClient.new host (.BearerToken api_key)
    .ok (⟨api_client, model⟩ : SwissAiProvider), [])

/-- Embeds the body of `fetch_supported_models` (source lines 117-129) acting
on the decoded JSON listing response: require a `data` array, collect the
string-valued `id` of each entry (entries without one are skipped by
`filter_map`), and sort.  `Vec::sort` on strings is embedded as
`insertionSort (le)`, which agrees with any stable sort under a total order. -/
def fetch_supported_models (response : Json) : Except ProviderError (Option (List String)) :=
  match (response.get ("data")).bind Json.asArray with
  | none => .error (.UsageError ("Missing or invalid `data` field in response"))
  | some data =>
      .ok (some (List.insertionSort (· ≤ ·)
        (data.filterMap (fun m => (m.get ("id")).bind Json.asStr))))

/-- Modelled from the spec: the primary content field the agnostic Message is
built from, at its OpenAI-compatible location `choices[0].message.content`
(the decode half of the format codec, `response_to_message`, lives outside the
file under study). -/
def primaryContent (response : Json) : Option String :=
  ((((response.get ("choices")).bind Json.asArray).bind List.head?).bind
    (fun c => (c.get ("message")).bind (fun m => (m.get ("content")).bind Json.asStr)))

/-- Modelled from the spec: decode must fail with a ResponseShapeError if the
primary content field the message is built from is absent; otherwise it yields
the assistant message. -/
def response_to_message (response : Json) : Except ProviderError Message :=
  match primaryContent response with
  | some c => .ok ⟨"assistant", c⟩
  | none => .error (.ResponseShapeError ("missing primary message content"))

/-- Modelled from the spec: normalized token accounting read from the `usage`
sub-object; each absent field stays absent rather than erroring. -/
def get_usage (usage : Json) : Usage :=
  ⟨(usage.get ("prompt_tokens")).bind Json.asInt,
   (usage.get ("completion_tokens")).bind Json.asInt,
   (usage.get ("total_tokens")).bind Json.asInt⟩

/-- Modelled from the spec: the adapter surfaces the model id the backend
actually reports, falling back to the configured model id if absent
(`get_model(&response)` lives outside the file under study). -/
def get_model (response : Json) (configured : String) : String :=
  (((response.get ("model")).bind Json.asStr).getD configured)

/-- Retriable error classification per the spec's taxonomy (§7): rate limiting
and transient network failures retry; everything else surfaces immediately. -/
def isRetriable : ProviderError → Bool
  | .RateLimitedError _ => true
  | .TransientNetworkError _ => true
  | _ => false

/-- Modelled from the spec: the Retry Policy (§4.4), `self.with_retry(op)` in
the source.  The operation threads a trace of the request payloads sent so
far; the policy re-invokes it on retriable errors up to the attempt ceiling
and surfaces the last observed error on exhaustion. -/
def with_retry (op : List Json → Except ProviderError Json × List Json) :
    Nat → List Json → Except ProviderError Json × List Json
  | remaining, trace =>
    match op trace with
    | (.ok v, t) => (.ok v, t)
    | (.error e, t) =>
      match remaining with
      | 0 => (.error e, t)
      | n + 1 => if isRetriable e then with_retry op n t else (.error e, t)

/-- Embeds `self.post(payload.clone())` (source lines 47-53) with the backend
abstracted as a response per attempt index: the sent payload is appended to
the trace and the backend's answer for this attempt is returned. -/
def postTraced (backend : Nat → Except ProviderError Json) (payload : Json)
    (trace : List Json) : Except ProviderError Json × List Json :=
  (backend trace.length, trace ++ [payload])

/-- The retry-wrapped send step of `complete` (source line 95):
`self.with_retry(|| self.post(payload.clone()))`. -/
def completeSend (backend : Nat → Except ProviderError Json) (payload : Json)
    (maxRetries : Nat) : Except ProviderError Json × List Json :=
  with_retry (postTraced backend payload) maxRetries []

/-- Embeds the decode phase of `complete` (source lines 97-104): build the
message (propagating its error), read `usage` with a zeroed default when the
sub-object is absent, and attach the resolved model id. -/
def completeDecode (configured : String) (response : Json) :
    Except ProviderError (Message × ProviderUsage) :=
  match response_to_message response with
  | .error e => .error e
  | .ok message =>
    let usage := (((response.get ("usage")).map get_usage).getD Usage.default)
    .ok (message, ⟨get_model response configured, usage⟩)

/-- Embeds `complete` (source lines 81-105) from the already-encoded request
payload on: retry-wrapped send, then decode.  The second component is the
trace of payloads handed to the transport, one per attempt. -/
def complete (configured : String) (payload : Json)
    (backend : Nat → Except ProviderError Json) (maxRetries : Nat) :
    Except ProviderError (Message × ProviderUsage) × List Json :=
  ((completeSend backend payload maxRetries).1.bind (completeDecode configured),
   (completeSend backend payload maxRetries).2)

/-- A listing response with no `data` field at all. -/
def c4Response : Json := Json.obj [("object", Json.str "list")]

/-- A listing response whose single `data` entry lacks an `id` field. -/
def c9Response : Json :=
  Json.obj [("data", Json.arr [Json.obj [("object", Json.str "model")]])]

/-- C4: for every listing response in which the `data` field is absent or not
an array, `fetch_supported_models` returns an error — not an empty list and
not `none`. -/
theorem C4_missing_data_errors (response : Json)
    (h : (response.get ("data")).bind Json.asArray = none) :
    fetch_supported_models response =
      .error (.UsageError ("Missing or invalid `data` field in response")) := by
  unfold fetch_supported_models
  rw [h]

theorem C4_missing_data_errors_witness :
    fetch_supported_models c4Response =
      .error (.UsageError ("Missing or invalid `data` field in response")) :=
  C4_missing_data_errors c4Response rfl

/-- C9: for every listing response whose `data` field is an array, the call
succeeds with some list (entries lacking a string-valued `id` never cause an
error), and when every entry lacks such an `id` the result is `ok (some [])`. -/
theorem C9_entries_without_id_skipped (response : Json) (data : List Json)
    (h : (response.get ("data")).bind Json.asArray = some data) :
    (∃ l, fetch_supported_models response = .ok (some l)) ∧
    ((∀ m ∈ data, (m.get ("id")).bind Json.asStr = none) →
      fetch_supported_models response = .ok (some [])) := by
  have hfetch : fetch_supported_models response =
      .ok (some (List.insertionSort (fun a b => a ≤ b)
        (data.filterMap (fun m => (m.get ("id")).bind Json.asStr)))) := by
    unfold fetch_supported_models
    rw [h]
  refine ⟨⟨_, hfetch⟩, fun hall => ?_⟩
  rw [hfetch, List.filterMap_eq_nil_iff.mpr hall]
  rfl

theorem C9_entries_without_id_skipped_witness :
    fetch_supported_models c9Response = .ok (some []) :=
  (C9_entries_without_id_skipped c9Response
      [Json.obj [("object", Json.str "model")]] rfl).2
    (by
      intro m hm
      cases hm with
      | head => rfl
      | tail _ hm => cases hm)

/-- C10: `fetch_supported_models` never returns `ok none`: every outcome is
either an error or `ok (some list)`, so the "no listing capability" outcome
described by its doc comment is unreachable in this adapter. -/
theorem C10_never_ok_none (response : Json) :
    (∃ e, fetch_supported_models response = .error e) ∨
    (∃ l, fetch_supported_models response = .ok (some l)) := by
  unfold fetch_supported_models
  cases (response.get ("data")).bind Json.asArray with
  | none => exact Or.inl ⟨_, rfl⟩
  | some data => exact Or.inr ⟨_, rfl⟩

/-- C6: `metadata()` is deterministic and independent of the configuration
state — any two calls agree — and it succeeds (returns the descriptor) even
when the credential/config store is empty. -/
theorem C6_metadata_pure (s₁ s₂ : ConfigStore) :
    metadataCall s₁ = metadataCall s₂ ∧
    metadataCall ⟨[], []⟩ = SwissAiProvider.metadata :=
  ⟨rfl, rfl⟩

/-- C7: the published metadata declares exactly two configuration keys — the
required secret `SWISS_AI_API_KEY` with no default, and the optional
non-secret `SWISS_AI_HOST` defaulting to the published base URL — and every
declared key satisfies "required implies default absent". -/
theorem C7_config_keys_shape :
    SwissAiProvider.metadata.config_keys =
      [⟨"SWISS_AI_API_KEY", true, true, none⟩,
       ⟨"SWISS_AI_HOST", false, false, some SWISS_AI_API_HOST⟩] ∧
    SwissAiProvider.metadata.config_keys.all
      (fun k => !k.required || k.default.isNone) = true :=
  ⟨rfl, rfl⟩

/-- C5: whenever the required credential `SWISS_AI_API_KEY` is absent from the
configuration state, `from_env` fails with a ConfigurationError and the
transport records zero invocations. -/
theorem C5_missing_key_fails (config : ConfigStore) (model : ModelConfig)
    (h : config.secrets.lookup ("SWISS_AI_API_KEY") = none) :
    SwissAiProvider.from_env config model =
      (.error (.ConfigurationError ("missing secret: " ++ "SWISS_AI_API_KEY")), []) := by
  have hsec : config.get_secret ("SWISS_AI_API_KEY") =
      .error (.ConfigurationError ("missing secret: " ++ "SWISS_AI_API_KEY")) := by
    unfold ConfigStore.get_secret
    rw [h]
  unfold SwissAiProvider.from_env
  rw [hsec]
  rfl

theorem C5_missing_key_fails_witness :
    SwissAiProvider.from_env ⟨[], []⟩ ⟨SWISS_AI_DEFAULT_MODEL⟩ =
      (.error (.ConfigurationError ("missing secret: " ++ "SWISS_AI_API_KEY")), []) :=
  C5_missing_key_fails ⟨[], []⟩ ⟨SWISS_AI_DEFAULT_MODEL⟩ rfl

/-- A chat response with the primary content present and no `usage` sub-object. -/
def c2Response : Json :=
  Json.obj [("choices", Json.arr [Json.obj [("message",
    Json.obj [("role", Json.str "assistant"), ("content", Json.str "hello")])]])]

/-- A chat response lacking the primary message-content field entirely. -/
def c3Response : Json := Json.obj [("object", Json.str "chat.completion")]

/-- C2: for every successfully decoded response payload in which the `usage`
sub-object is absent, `complete` still succeeds and pairs the message with the
zeroed default Usage; the missing usage never causes an error. -/
theorem C2_missing_usage_zeroed (configured : String) (payload : Json)
    (backend : Nat → Except ProviderError Json) (maxRetries : Nat)
    (response : Json) (message : Message)
    (hsend : (completeSend backend payload maxRetries).1 = .ok response)
    (hmsg : response_to_message response = .ok message)
    (husage : response.get ("usage") = none) :
    (complete configured payload backend maxRetries).1 =
      .ok (message, ⟨get_model response configured, Usage.default⟩) := by
  have hdec : completeDecode configured response =
      .ok (message, ⟨get_model response configured, Usage.default⟩) := by
    unfold completeDecode
    rw [hmsg, husage]
    rfl
  show (completeSend backend payload maxRetries).1.bind (completeDecode configured) = _
  rw [hsend]
  exact hdec

theorem C2_missing_usage_zeroed_witness :
    (complete ("llama-3.3-70b-instruct") Json.null (fun _ => .ok c2Response) 3).1 =
      .ok (⟨"assistant", "hello"⟩, ⟨"llama-3.3-70b-instruct", Usage.default⟩) :=
  C2_missing_usage_zeroed ("llama-3.3-70b-instruct") Json.null (fun _ => .ok c2Response) 3
    c2Response ⟨"assistant", "hello"⟩ rfl rfl rfl

/-- C3: for every response payload in which the primary message-content field
is absent, `complete` fails with a ResponseShapeError rather than returning a
message. -/
theorem C3_missing_content_error (configured : String) (payload : Json)
    (backend : Nat → Except ProviderError Json) (maxRetries : Nat) (response : Json)
    (hsend : (completeSend backend payload maxRetries).1 = .ok response)
    (hmiss : primaryContent response = none) :
    (complete configured payload backend maxRetries).1 =
      .error (.ResponseShapeError ("missing primary message content")) := by
  have hdec : completeDecode configured response =
      .error (.ResponseShapeError ("missing primary message content")) := by
    unfold completeDecode response_to_message
    rw [hmiss]
  show (completeSend backend payload maxRetries).1.bind (completeDecode configured) = _
  rw [hsend]
  exact hdec

theorem C3_missing_content_error_witness :
    (complete ("llama-3.3-70b-instruct") Json.null (fun _ => .ok c3Response) 3).1 =
      .error (.ResponseShapeError ("missing primary message content")) :=
  C3_missing_content_error ("llama-3.3-70b-instruct") Json.null (fun _ => .ok c3Response) 3
    c3Response rfl rfl

/-- Every payload the retry loop hands to the transport is the one payload it
was given: the trace only ever grows by copies of `payload`. -/
theorem with_retry_trace_replicate (backend : Nat → Except ProviderError Json)
    (payload : Json) (remaining : Nat) :
    ∀ trace : List Json, ∃ k : Nat,
      (with_retry (postTraced backend payload) remaining trace).2 =
        trace ++ List.replicate k payload := by
  induction remaining with
  | zero =>
    intro trace
    refine ⟨1, ?_⟩
    unfold with_retry postTraced
    cases backend trace.length <;> rfl
  | succ n ih =>
    intro trace
    unfold with_retry postTraced
    cases hb : backend trace.length with
    | ok v => exact ⟨1, rfl⟩
    | error e =>
      show ∃ k, (if isRetriable e = true
          then with_retry (postTraced backend payload) n (trace ++ [payload])
          else (Except.error e, trace ++ [payload])).2 =
        trace ++ List.replicate k payload
      by_cases hr : isRetriable e = true
      · rw [if_pos hr]
        obtain ⟨k, hk⟩ := ih (trace ++ [payload])
        refine ⟨k + 1, ?_⟩
        rw [hk, List.append_assoc]
        rfl
      · rw [if_neg hr]
        exact ⟨1, rfl⟩

/-- C8: within one `complete` call, every retry attempt invokes the backend
with a request payload equal to the one produced by the single initial encode
step — the trace of sent payloads is literally that payload repeated. -/
theorem C8_payload_reused_verbatim (configured : String) (payload : Json)
    (backend : Nat → Except ProviderError Json) (maxRetries : Nat) :
    (complete configured payload backend maxRetries).2 =
      List.replicate (complete configured payload backend maxRetries).2.length payload := by
  obtain ⟨k, hk⟩ := with_retry_trace_replicate backend payload maxRetries []
  show (completeSend backend payload maxRetries).2 =
    List.replicate (completeSend backend payload maxRetries).2.length payload
  unfold completeSend
  rw [hk]
  simp

/-- A listing response whose `data` entries carry duplicate ids. -/
def c1DupResponse : Json :=
  Json.obj [("data", Json.arr
    [Json.obj [("id", Json.str "m")], Json.obj [("id", Json.str "m")]])]

/-- A listing response with a single entry, used to witness sortedness. -/
def c1SingleResponse : Json :=
  Json.obj [("data", Json.arr [Json.obj [("id", Json.str "m1")]])]

/-- C1 fails as stated: on a listing whose entries carry the same id twice,
`fetch_supported_models` returns that id twice — the result is not
duplicate-free (the source sorts but never de-duplicates). -/
theorem C1_counterexample :
    fetch_supported_models c1DupResponse = .ok (some ["m", "m"]) ∧
    ¬ (["m", "m"] : List String).Nodup := by
  have h1 : fetch_supported_models c1DupResponse =
      .ok (some (List.insertionSort (fun a b : String => a ≤ b) ["m", "m"])) := rfl
  have h2 : List.insertionSort (fun a b : String => a ≤ b) ["m", "m"] = ["m", "m"] := by
    simp [List.insertionSort, List.orderedInsert]
  exact ⟨by rw [h1, h2], by decide⟩

/-- C1 (amended): every successful result of `fetch_supported_models` is
sorted lexicographically, and it is a permutation of the ids extracted from
the listing — duplicate entries are preserved, not removed. -/
theorem C1_amended_sorted (response : Json) (data : List Json) (l : List String)
    (hd : (response.get ("data")).bind Json.asArray = some data)
    (h : fetch_supported_models response = .ok (some l)) :
    l.Sorted (fun a b => a ≤ b) ∧
    l.Perm (data.filterMap (fun m => (m.get ("id")).bind Json.asStr)) := by
  have hfe : fetch_supported_models response =
      .ok (some (List.insertionSort (fun a b => a ≤ b)
        (data.filterMap (fun m => (m.get ("id")).bind Json.asStr)))) := by
    unfold fetch_supported_models
    rw [hd]
  rw [hfe] at h
  injection h with h1
  injection h1 with h2
  exact h2 ▸ ⟨List.sorted_insertionSort _ _, List.perm_insertionSort _ _⟩

theorem C1_amended_sorted_witness :
    (["m1"] : List String).Sorted (fun a b : String => a ≤ b) ∧
    (["m1"] : List String).Perm
      ([Json.obj [("id", Json.str "m1")]].filterMap
        (fun m => (m.get ("id")).bind Json.asStr)) :=
  C1_amended_sorted c1SingleResponse [Json.obj [("id", Json.str "m1")]] ["m1"] rfl rfl
